import Mathlib

/-!
Verification model of lldap's `src/infra/tcp_server.rs`: the authentication
gateway (token issuance, cookie bridge, token validation, error mapping).
Pure Rust control flow is translated directly; calls into external crates
(jwt, hmac, actix) are modelled at their interface, with the model choices
documented on each definition.
-/

/-- Signing algorithm identifiers of the jwt crate; the source only ever
uses `Hs512`, the others stand for every other algorithm a presented token
could declare. -/
inductive AlgorithmType
  | Hs256
  | Hs384
  | Hs512
  deriving DecidableEq

/-- Model of `jwt::Header`. `create_jwt` sets only the `algorithm` field and
defaults the rest (`..Default::default()`); verification reads only the
algorithm, so the defaulted fields are omitted. -/
structure JwtHeader where
  algorithm : AlgorithmType
  deriving DecidableEq

/-- The signed payload, `struct JWTClaims`: `exp` as an absolute timestamp in
seconds since the epoch (`DateTime<Utc>`), the identity string `user`, and
the group set `groups` (`HashSet<String>`, modelled as `Finset String`). -/
structure JWTClaims where
  exp : Int
  user : String
  groups : Finset String
  deriving DecidableEq

/-- Model of the `Hmac<Sha512>` key built by
`Hmac::new_varkey(jwt_secret.as_bytes())` in `http_config`: determined by the
configured secret string. -/
structure HmacKey where
  secret : String
  deriving DecidableEq

/-- The algorithm a `Hmac<Sha512>` key signs and verifies
(`AlgorithmType::Hs512` in the jwt crate). -/
def HmacKey.algorithm_type (_ : HmacKey) : AlgorithmType := .Hs512

/-- A concrete deterministic hash of a string, used inside the signature
model. -/
def strHash (s : String) : Nat :=
  s.data.foldl (fun a c => a * 131 + c.toNat) 7

/-- Injection of a timestamp into `Nat`, used inside the signature model. -/
def intCode (i : Int) : Nat :=
  2 * i.natAbs + (if i < 0 then 1 else 0)

/-- Model of the HMAC-SHA512 tag over the serialized header and claims: a
concrete deterministic function of the key, the header and the claims.  The
group component is folded with `Finset.sum` so the tag is well defined on the
group set.  The proofs rely only on the tag being a deterministic function of
these inputs, which is all that is true of the real HMAC short of its
cryptographic collision resistance. -/
def macSign (key : HmacKey) (h : JwtHeader) (c : JWTClaims) : Nat :=
  strHash key.secret * 1000003
    + (match h.algorithm with
        | .Hs256 => 1
        | .Hs384 => 2
        | .Hs512 => 3) * 10007
    + intCode c.exp * 101
    + strHash c.user * 31
    + c.groups.sum strHash

/-- Model of `SignedToken = jwt::Token<jwt::Header, JWTClaims, Signed>`: a
header, claims, and the signature produced over them. -/
structure SignedToken where
  header : JwtHeader
  claims : JWTClaims
  signature : Nat
  deriving DecidableEq

/-- A presented bearer credential string, as the jwt crate's parser sees it:
either it does not parse as a three-part token at all (`malformed`, carrying
the raw string), or it parses into a header, claims and signature.  This
identifies token strings up to the jwt crate's serialize/parse round trip. -/
inductive Credential
  | malformed (raw : String)
  | parsed (header : JwtHeader) (claims : JWTClaims) (signature : Nat)
  deriving DecidableEq

/-- The string form of a signed token, as a `Credential`: serializing and
re-parsing a signed token yields its own header, claims and signature (the
jwt crate's round-trip guarantee). -/
def SignedToken.asCredential (t : SignedToken) : Credential :=
  .parsed t.header t.claims t.signature

/-- Model of `token.as_str()`: a concrete rendering of the signed token as a
string, well defined on the group set.  Only equalities between occurrences
of this rendering are used in the development. -/
def SignedToken.as_str (t : SignedToken) : String :=
  (match t.header.algorithm with
    | .Hs256 => "HS256"
    | .Hs384 => "HS384"
    | .Hs512 => "HS512")
    ++ "." ++ toString t.claims.exp
    ++ "." ++ t.claims.user
    ++ "." ++ toString (t.claims.groups.sum strHash)
    ++ "." ++ toString t.signature

/-- The failure cases of `jwt::VerifyWithKey::verify_with_key`: the string
does not parse, the header declares an algorithm other than the key's, or
the recomputed tag differs from the carried signature. -/
inductive JwtError
  | parseError
  | algorithmMismatch
  | invalidSignature
  deriving DecidableEq

/-- Model of `VerifyWithKey::verify_with_key(token_str, &key)` from the jwt
crate: parse the string, check the declared algorithm against the key's
algorithm type, recompute the tag over header and claims and compare it with
the carried signature; on success return the verified header and claims. -/
def verify_with_key (cred : Credential) (key : HmacKey) :
    Except JwtError (JwtHeader × JWTClaims) :=
  match cred with
  | .malformed _ => .error .parseError
  | .parsed h c s =>
    if h.algorithm ≠ key.algorithm_type then .error .algorithmMismatch
    else if s ≠ macSign key h c then .error .invalidSignature
    else .ok (h, c)

/-- Translation of `create_jwt`: claims with `exp = Utc::now() +
Duration::days(1)` (86400 seconds past `now`), the given user and groups; an
`Hs512` header; signed with the key.  (`sign_with_key` cannot fail for an
HMAC key, so the source's `.unwrap()` is total here.) -/
def create_jwt (key : HmacKey) (now : Int) (user : String)
    (groups : Finset String) : SignedToken :=
  let claims : JWTClaims := { exp := now + 86400, user := user, groups := groups }
  let header : JwtHeader := { algorithm := .Hs512 }
  { header := header, claims := claims, signature := macSign key header claims }

/-- Model of `actix_web::Error` values produced by this file:
`ErrorUnauthorized` (401) and `ErrorBadRequest` (400), each carrying its
message. -/
inductive ActixError
  | unauthorized (msg : String)
  | badRequest (msg : String)
  deriving DecidableEq

/-- An incoming request to the protected scope, with its cookie jar and its
header map (lists of name/value pairs; `HeaderMap::insert` replaces every
value under the inserted name). -/
structure ServiceRequest where
  cookies : List (String × String)
  headers : List (String × String)
  deriving DecidableEq

/-- Model of `req.cookie(name)`: the first cookie with the given name. -/
def ServiceRequest.cookie (req : ServiceRequest) (name : String) :
    Option String :=
  (req.cookies.find? (fun p => p.1 == name)).map (fun p => p.2)

/-- Look up the first header with the given name. -/
def ServiceRequest.header (req : ServiceRequest) (name : String) :
    Option String :=
  (req.headers.find? (fun p => p.1 == name)).map (fun p => p.2)

/-- Translation of `token_validator`: verify the bearer credential with the
process-wide key, mapping every verification failure to the one generic
`ErrorUnauthorized("Invalid JWT")`; then reject an expired token
(`exp < now`, strict) with `ErrorUnauthorized("Expired JWT")`; then require
membership of "lldap_admin" in the token's groups, rejecting its absence
with the group-naming message; on success pass the request through
unchanged (`Ok(req)`). -/
def token_validator (key : HmacKey) (now : Int) (req : ServiceRequest)
    (credentials : Credential) : Except ActixError ServiceRequest :=
  match verify_with_key credentials key with
  | .error _ => .error (.unauthorized "Invalid JWT")
  | .ok (_, claims) =>
    if claims.exp < now then
      .error (.unauthorized "Expired JWT")
    else if "lldap_admin" ∈ claims.groups then
      .ok req
    else
      .error (.unauthorized "JWT error: User is not in group lldap_admin")

/-- A `Set-Cookie` on a response, as built by `Cookie::build`: name, value,
and the attributes the source sets (`max_age` in seconds, `path`,
`http_only`; each defaulted when the builder does not set it). -/
structure SetCookie where
  name : String
  value : String
  max_age : Option Int
  path : Option String
  http_only : Bool
  deriving DecidableEq

/-- An HTTP response: status code, the cookies set on it, and its body. -/
structure HttpResponse where
  status : Nat
  cookies : List SetCookie
  body : String
  deriving DecidableEq

/-- Model of the two domain error variants of `domain::error::Error` that
`error_to_http_response` matches on; Rust's exhaustive `match` with no
wildcard arm shows these are the only variants.  Each carries the text of
the wrapped failure. -/
inductive Error
  | AuthenticationError (msg : String)
  | DatabaseError (msg : String)
  deriving DecidableEq

/-- Modelled from the spec: the `Display` implementation of
`domain::error::Error` (called as `error.to_string()`) is not under `src/`;
per the spec the Error Mapper produces a response "carrying the failure's
message as the body", so rendering yields the carried message. -/
def Error.to_string : Error → String
  | .AuthenticationError msg => msg
  | .DatabaseError msg => msg

/-- Model of `ApiResult<M> = Either<web::Json<M>, HttpResponse>`: either a
JSON-rendered value or a raw response. -/
inductive ApiResult (M : Type)
  | left (val : M)
  | right (resp : HttpResponse)
  deriving DecidableEq

/-- Translation of `error_to_http_response`: an `AuthenticationError` becomes
a 401 Unauthorized, a `DatabaseError` a 500 Internal Server Error, in both
cases with the error's rendered message as the body and no cookies. -/
def error_to_http_response {M : Type} (error : Error) : ApiResult M :=
  .right
    { status :=
        match error with
        | .AuthenticationError _ => 401
        | .DatabaseError _ => 500
      cookies := []
      body := error.to_string }

/-- Modelled from the spec: `BindRequest` lives in `domain::handler`, not
under `src/`; the wire table gives its body as `{name, password}` and
`post_authorize` reads `request.name`. -/
structure BindRequest where
  name : String
  password : String
  deriving DecidableEq

/-- Modelled from the spec: `ListUsersRequest` (the "query filter object" of
the wire table) lives in `domain::handler`, not under `src/`; its contents
are opaque to this file. -/
structure ListUsersRequest where
  filters : Option String
  deriving DecidableEq

/-- Modelled from the spec: `User` (a record of the "list of user records")
lives in `domain::handler`, not under `src/`; only its identity field
matters here. -/
structure User where
  user_id : String
  deriving DecidableEq

/-- The `BackendHandler` capability consumed by the server, per the trait's
use in the source and the spec's interface section: `bind`,
`get_user_groups` and `list_users`, each returning a domain `Error` on
failure.  The async calls are modelled as pure functions. -/
structure Backend where
  bind : BindRequest → Except Error Unit
  get_user_groups : String → Except Error (Finset String)
  list_users : ListUsersRequest → Except Error (List User)

/-- The per-process `AppState`: the backend handler and the JWT key. -/
structure AppState where
  backend_handler : Backend
  jwt_key : HmacKey

/-- Translation of `post_authorize`: bind against the backend, and only on
success fetch the user's groups (`and_then` short-circuits); on success of
both, mint a token with `create_jwt` and answer 200 with the token cookie
(`Max-Age` one day, `Path=/api`, `HttpOnly`), the `user_id` cookie
(`Max-Age` one day), and the token string as the body; any failure is
rendered by `error_to_http_response`. -/
def post_authorize (state : AppState) (now : Int) (request : BindRequest) :
    ApiResult String :=
  match state.backend_handler.bind request with
  | .error e => error_to_http_response e
  | .ok _ =>
    match state.backend_handler.get_user_groups request.name with
    | .error e => error_to_http_response e
    | .ok groups =>
      let token := create_jwt state.jwt_key now request.name groups
      .right
        { status := 200
          cookies :=
            [ { name := "token"
                value := token.as_str
                max_age := some 86400
                path := some "/api"
                http_only := true },
              { name := "user_id"
                value := request.name
                max_age := some 86400
                path := none
                http_only := false } ]
          body := token.as_str }

/-- Whether a character may appear in an HTTP header value
(`HeaderValue::from_str` of the http crate): horizontal tab, or any byte
from 32 up except DEL (127); bytes of multi-byte UTF-8 characters are all at
least 128, so the check is equivalently stated per character. -/
def isValidHeaderValueChar (c : Char) : Bool :=
  c == '\t' || (32 ≤ c.toNat && c.toNat ≠ 127)

/-- Whether `HeaderValue::from_str` accepts the string. -/
def isValidHeaderValue (s : String) : Bool :=
  s.data.all isValidHeaderValueChar

/-- Insert a header, replacing every existing value under that name
(`HeaderMap::insert`). -/
def headersInsert (headers : List (String × String)) (name value : String) :
    List (String × String) :=
  (name, value) :: headers.filter (fun p => !(p.1 == name))

/-- Translation of the `wrap_fn` closure in `http_config` (the Cookie
Bridge): if a "token" cookie is present, build the header value
`Bearer <cookie>`; if that value is header-encodable, insert it as the
`authorization` header (replacing any existing one) and forward the request;
if it is not encodable, answer 400 `Invalid token cookie` without
forwarding.  With no "token" cookie the request is forwarded untouched. -/
def token_cookie_bridge (req : ServiceRequest) :
    Except HttpResponse ServiceRequest :=
  match req.cookie "token" with
  | some tokenValue =>
    if isValidHeaderValue ("Bearer " ++ tokenValue) then
      .ok { req with
            headers := headersInsert req.headers "authorization"
              ("Bearer " ++ tokenValue) }
    else
      .error { status := 400, cookies := [], body := "Invalid token cookie" }
  | none => .ok req

/-- The `/api` scope as a pipeline: the Cookie Bridge runs first (it is the
outermost wrap), and only a request it forwards ever reaches the inner
service (the bearer-auth middleware and the routed handler, abstracted as
`inner`). -/
def api_scope_pipeline (inner : ServiceRequest → HttpResponse)
    (req : ServiceRequest) : HttpResponse :=
  match token_cookie_bridge req with
  | .error resp => resp
  | .ok fwd => inner fwd

/-- Translation of `user_list_handler`: delegate to the backend's
`list_users`, rendering the result as JSON on success and through
`error_to_http_response` on failure. -/
def user_list_handler (state : AppState) (info : ListUsersRequest) :
    ApiResult (List User) :=
  match state.backend_handler.list_users info with
  | .ok res => .left res
  | .error e => error_to_http_response e

/-- The failure cases of actix's JSON extractor under the `JsonConfig` of
`api_config`: the payload exceeds the configured limit, or serde fails to
deserialize it (carrying serde's message). -/
inductive JsonPayloadError
  | overflow
  | deserialize (msg : String)
  deriving DecidableEq

/-- The rendering (`err.to_string()`) of a JSON extractor failure, after
actix's error texts. -/
def JsonPayloadError.to_string : JsonPayloadError → String
  | .overflow => "Json payload size is bigger than allowed"
  | .deserialize msg => "Json deserialize error: " ++ msg

/-- A raw request body as the JSON extractor sees it: its size in bytes and
what serde deserialization of it would produce. -/
structure RawBody where
  size : Nat
  parse : Except String ListUsersRequest

/-- Model of actix's JSON extraction under `JsonConfig`: a body larger than
the configured limit is rejected before deserialization; otherwise serde's
verdict decides. -/
def json_extract (limit : Nat) (body : RawBody) :
    Except JsonPayloadError ListUsersRequest :=
  if limit < body.size then .error .overflow
  else
    match body.parse with
    | .error msg => .error (.deserialize msg)
    | .ok r => .ok r

/-- Translation of the `/users` resource of `api_config`: JSON extraction
with a 4096-byte limit whose `error_handler` answers 400 with the failure's
rendered message; only a successfully extracted body reaches
`user_list_handler`. -/
def users_route (state : AppState) (body : RawBody) : ApiResult (List User) :=
  match json_extract 4096 body with
  | .error err => .right { status := 400, cookies := [], body := err.to_string }
  | .ok info => user_list_handler state info

/-- C1: the Auth Gate checks parse/signature verification first, then
expiry, then group membership; the first failing check decides the result.
Every verification failure — malformed token, wrong algorithm, or a
signature that is not the tag recomputed over the carried header and claims
(in particular any altered signature, and any altered payload whose
recomputed tag no longer matches the carried signature) — yields the one
generic `Invalid JWT` error; a verified but expired token yields the
distinct `Expired JWT` error; a verified, unexpired token without the
required group yields a third distinct error; the three messages are
pairwise distinct. -/
theorem c1_gate_order_and_errors (key : HmacKey) (now : Int)
    (req : ServiceRequest) (cred : Credential) :
    (∀ e, verify_with_key cred key = .error e →
      token_validator key now req cred = .error (.unauthorized "Invalid JWT"))
    ∧ (∀ h c, verify_with_key cred key = .ok (h, c) → c.exp < now →
      token_validator key now req cred = .error (.unauthorized "Expired JWT"))
    ∧ (∀ h c, verify_with_key cred key = .ok (h, c) → ¬c.exp < now →
      "lldap_admin" ∉ c.groups →
      token_validator key now req cred =
        .error (.unauthorized "JWT error: User is not in group lldap_admin"))
    ∧ (∀ h c, verify_with_key cred key = .ok (h, c) → ¬c.exp < now →
      "lldap_admin" ∈ c.groups → token_validator key now req cred = .ok req)
    ∧ (∀ h c s, s ≠ macSign key h c →
      token_validator key now req (.parsed h c s) =
        .error (.unauthorized "Invalid JWT"))
    ∧ (∀ h c c' s, s = macSign key h c → macSign key h c' ≠ s →
      token_validator key now req (.parsed h c' s) =
        .error (.unauthorized "Invalid JWT"))
    ∧ (ActixError.unauthorized "Invalid JWT" ≠ .unauthorized "Expired JWT")
    ∧ (ActixError.unauthorized "Invalid JWT" ≠
        .unauthorized "JWT error: User is not in group lldap_admin")
    ∧ (ActixError.unauthorized "Expired JWT" ≠
        .unauthorized "JWT error: User is not in group lldap_admin") := by
  refine ⟨?_, ?_, ?_, ?_, ?_, ?_, by decide, by decide, by decide⟩
  · intro e he
    simp [token_validator, he]
  · intro h c hv hexp
    simp [token_validator, hv, hexp]
  · intro h c hv hexp hgrp
    simp [token_validator, hv, hexp, hgrp]
  · intro h c hv hexp hgrp
    simp [token_validator, hv, hexp, hgrp]
  · intro h c s hs
    by_cases halg : h.algorithm = key.algorithm_type
    · simp [token_validator, verify_with_key, halg, hs]
    · simp [token_validator, verify_with_key, halg]
  · intro h c c' s hsig hne
    have hs : s ≠ macSign key h c' := fun hh => hne hh.symm
    by_cases halg : h.algorithm = key.algorithm_type
    · simp [token_validator, verify_with_key, halg, hs]
    · simp [token_validator, verify_with_key, halg]

/-- Closed instance of `c1_gate_order_and_errors`: a string that does not
parse as a token is rejected with the generic error. -/
theorem c1_gate_order_and_errors_witness :
    token_validator ⟨"secret"⟩ 0 ⟨[], []⟩ (.malformed "garbage") =
      .error (.unauthorized "Invalid JWT") :=
  (c1_gate_order_and_errors ⟨"secret"⟩ 0 ⟨[], []⟩ (.malformed "garbage")).1
    .parseError rfl

/-- C2: round trip.  Signing with `create_jwt` and immediately verifying the
token's string form with the same key succeeds and recovers exactly the
issued identity and group set; and when the group set contains
`lldap_admin`, the validator admits the request (the expiry, set one day
ahead, has not passed at the issuance instant). -/
theorem c2_round_trip (key : HmacKey) (now : Int) (user : String)
    (groups : Finset String) (req : ServiceRequest) :
    verify_with_key (create_jwt key now user groups).asCredential key =
      .ok ((create_jwt key now user groups).header,
           (create_jwt key now user groups).claims)
    ∧ (create_jwt key now user groups).claims.user = user
    ∧ (create_jwt key now user groups).claims.groups = groups
    ∧ ("lldap_admin" ∈ groups →
      token_validator key now req (create_jwt key now user groups).asCredential =
        .ok req) := by
  have hexp : ¬(now + 86400 < now) := by omega
  refine ⟨?_, rfl, rfl, ?_⟩
  · simp [create_jwt, SignedToken.asCredential, verify_with_key,
      HmacKey.algorithm_type]
  · intro hmem
    simp [token_validator, create_jwt, SignedToken.asCredential,
      verify_with_key, HmacKey.algorithm_type, hexp, hmem]

/-- Closed instance of `c2_round_trip`: a token issued at time 0 for alice
with the admin group is admitted when verified at time 0. -/
theorem c2_round_trip_witness :
    token_validator ⟨"secret"⟩ 0 ⟨[], []⟩
      (create_jwt ⟨"secret"⟩ 0 "alice" {"lldap_admin"}).asCredential =
      .ok ⟨[], []⟩ :=
  (c2_round_trip ⟨"secret"⟩ 0 "alice" {"lldap_admin"} ⟨[], []⟩).2.2.2 (by decide)

/-- C3 fails as stated: on a request that carries both a token cookie and a
client-sent Authorization header, the bridge inserts the cookie-derived
value and the client's header `Bearer Y` is replaced — the source's
`wrap_fn` never looks for an existing Authorization header before
inserting. -/
theorem c3_counterexample :
    ServiceRequest.header ⟨[("token", "T")], [("authorization", "Bearer Y")]⟩
        "authorization" = some "Bearer Y"
    ∧ token_cookie_bridge ⟨[("token", "T")], [("authorization", "Bearer Y")]⟩ =
        .ok ⟨[("token", "T")], [("authorization", "Bearer T")]⟩
    ∧ ("Bearer Y" : String) ≠ "Bearer T" := by
  refine ⟨rfl, ?_, by decide⟩
  simp [token_cookie_bridge, ServiceRequest.cookie, headersInsert,
    isValidHeaderValue, isValidHeaderValueChar]

/-- C3 amended: whenever a token cookie with a header-encodable value is
present, the bridge synthesizes `Authorization: Bearer <cookie>`, replacing
any Authorization header the client sent; when no token cookie is present
the request passes through completely unchanged. -/
theorem c3_bridge_amended (req : ServiceRequest) (v : String) :
    (req.cookie "token" = some v →
      isValidHeaderValue ("Bearer " ++ v) = true →
      token_cookie_bridge req =
        .ok { req with
              headers := headersInsert req.headers "authorization"
                ("Bearer " ++ v) }
      ∧ ServiceRequest.header
          { req with
            headers := headersInsert req.headers "authorization"
              ("Bearer " ++ v) } "authorization" = some ("Bearer " ++ v))
    ∧ (req.cookie "token" = none → token_cookie_bridge req = .ok req) := by
  constructor
  · intro hc hv
    refine ⟨by simp [token_cookie_bridge, hc, hv], ?_⟩
    simp [ServiceRequest.header, headersInsert]
  · intro hc
    simp [token_cookie_bridge, hc]

/-- Closed instance of `c3_bridge_amended`: a lone token cookie is bridged
into the Authorization header. -/
theorem c3_bridge_amended_witness :
    token_cookie_bridge ⟨[("token", "T")], []⟩ =
      .ok ⟨[("token", "T")], [("authorization", "Bearer T")]⟩ :=
  ((c3_bridge_amended ⟨[("token", "T")], []⟩ "T").1 rfl (by decide)).1

/-- C4: a request to the protected scope whose token cookie value cannot be
encoded as a header value is answered 400 `Invalid token cookie` by the
bridge itself, and the inner service — whatever it is, in particular the
bearer-auth middleware doing signature verification — is never reached. -/
theorem c4_invalid_cookie_short_circuit (req : ServiceRequest) (v : String)
    (hc : req.cookie "token" = some v)
    (hv : isValidHeaderValue ("Bearer " ++ v) = false) :
    token_cookie_bridge req =
      .error { status := 400, cookies := [], body := "Invalid token cookie" }
    ∧ ∀ inner : ServiceRequest → HttpResponse,
      api_scope_pipeline inner req =
        { status := 400, cookies := [], body := "Invalid token cookie" } := by
  have hb : token_cookie_bridge req =
      .error { status := 400, cookies := [], body := "Invalid token cookie" } := by
    simp [token_cookie_bridge, hc, hv]
  exact ⟨hb, fun inner => by simp [api_scope_pipeline, hb]⟩

/-- Closed instance of `c4_invalid_cookie_short_circuit`: a token cookie
containing a newline is rejected with the 400 response regardless of the
inner service (here one that would answer 200). -/
theorem c4_invalid_cookie_short_circuit_witness :
    api_scope_pipeline (fun _ => { status := 200, cookies := [], body := "" })
      ⟨[("token", "a\nb")], []⟩ =
      { status := 400, cookies := [], body := "Invalid token cookie" } :=
  (c4_invalid_cookie_short_circuit ⟨[("token", "a\nb")], []⟩ "a\nb" rfl
    (by decide)).2 _

/-- C5: every minted token's expiry claim is exactly the issuance time plus
24 hours (86400 seconds); the validator passes an admitted request through
unchanged rather than producing anything new; and on correctly signed
tokens its verdict reads the expiry only through the comparison against the
current time — two claims differing only in expiries that compare the same
way against `now` are treated identically. -/
theorem c5_expiry_set_once (key : HmacKey) (now : Int) (user : String)
    (groups : Finset String) (req : ServiceRequest) (cred : Credential) :
    (create_jwt key now user groups).claims.exp = now + 86400
    ∧ (∀ r, token_validator key now req cred = .ok r → r = req)
    ∧ (∀ (h : JwtHeader) (c c' : JWTClaims), c.user = c'.user →
      c.groups = c'.groups → (c.exp < now ↔ c'.exp < now) →
      token_validator key now req (.parsed h c (macSign key h c)) =
        token_validator key now req (.parsed h c' (macSign key h c'))) := by
  refine ⟨rfl, ?_, ?_⟩
  · intro r hr
    unfold token_validator at hr
    cases hver : verify_with_key cred key with
    | error e => rw [hver] at hr; simp at hr
    | ok p =>
      obtain ⟨h, c⟩ := p
      rw [hver] at hr
      by_cases hexp : c.exp < now
      · simp [hexp] at hr
      · by_cases hgrp : "lldap_admin" ∈ c.groups
        · simp [hexp, hgrp] at hr
          exact hr.symm
        · simp [hexp, hgrp] at hr
  · intro h c c' huser hgroups hiff
    by_cases halg : h.algorithm = key.algorithm_type
    · by_cases hexp : c.exp < now
      · simp [token_validator, verify_with_key, halg, hexp, hiff.mp hexp]
      · have hexp' : ¬c'.exp < now := fun hh => hexp (hiff.mpr hh)
        simp [token_validator, verify_with_key, halg, hexp, hexp', hgroups]
    · simp [token_validator, verify_with_key, halg]

/-- Closed instance of `c5_expiry_set_once`: the expiry of a token issued at
time 1000 is 1000 + 86400, and a request admitted by the validator comes
back unchanged. -/
theorem c5_expiry_set_once_witness :
    (create_jwt ⟨"secret"⟩ 1000 "alice" {"lldap_admin"}).claims.exp =
      1000 + 86400
    ∧ (⟨[], []⟩ : ServiceRequest) = ⟨[], []⟩ :=
  ⟨(c5_expiry_set_once ⟨"secret"⟩ 1000 "alice" {"lldap_admin"} ⟨[], []⟩
      (.malformed "x")).1,
   (c5_expiry_set_once ⟨"secret"⟩ 1000 "alice" {"lldap_admin"} ⟨[], []⟩
      (create_jwt ⟨"secret"⟩ 1000 "alice" {"lldap_admin"}).asCredential).2.1
     ⟨[], []⟩ (by rfl)⟩

/-- C6: the Error Mapper renders every `AuthenticationError` as a 401 whose
body is the error's message, every `DatabaseError` as a 500 whose body is
the error's message, with no cookies; 500 and 401 are distinct, so a
backend error is never rendered as a 401, and the exhaustive match admits
no other mapping. -/
theorem c6_error_mapper (M : Type) (msg : String) :
    @error_to_http_response M (.AuthenticationError msg) =
      .right { status := 401, cookies := [], body := msg }
    ∧ @error_to_http_response M (.DatabaseError msg) =
      .right { status := 500, cookies := [], body := msg }
    ∧ (∀ e : Error, @error_to_http_response M e =
        .right { status := 401, cookies := [], body := e.to_string }
      ∨ @error_to_http_response M e =
        .right { status := 500, cookies := [], body := e.to_string })
    ∧ (500 : Nat) ≠ 401 := by
  refine ⟨rfl, rfl, ?_, by decide⟩
  intro e
  cases e with
  | AuthenticationError m => exact Or.inl rfl
  | DatabaseError m => exact Or.inr rfl

/-- C7: issuance short-circuits and is all-or-nothing.  When the bind call
fails, the result is the mapped error whatever the group-lookup function is
(so that call is never consulted); when the bind succeeds but the group
lookup fails, the result is again the mapped error; an error response
carries no cookie; only when both calls succeed is a token minted and
returned with its two cookies. -/
theorem c7_issuance_all_or_nothing (b : Backend) (key : HmacKey) (now : Int)
    (request : BindRequest) :
    (∀ e, b.bind request = .error e →
      ∀ g' : String → Except Error (Finset String),
        post_authorize ⟨⟨b.bind, g', b.list_users⟩, key⟩ now request =
          @error_to_http_response String e)
    ∧ (∀ e, b.bind request = .ok () →
      b.get_user_groups request.name = .error e →
      post_authorize ⟨b, key⟩ now request = @error_to_http_response String e)
    ∧ (∀ (e : Error) (resp : HttpResponse),
      @error_to_http_response String e = .right resp → resp.cookies = [])
    ∧ (∀ groups, b.bind request = .ok () →
      b.get_user_groups request.name = .ok groups →
      post_authorize ⟨b, key⟩ now request =
        .right
          { status := 200
            cookies :=
              [⟨"token", (create_jwt key now request.name groups).as_str,
                some 86400, some "/api", true⟩,
               ⟨"user_id", request.name, some 86400, none, false⟩]
            body := (create_jwt key now request.name groups).as_str }) := by
  refine ⟨?_, ?_, ?_, ?_⟩
  · intro e he g'
    simp [post_authorize, he]
  · intro e hb hg
    simp [post_authorize, hb, hg]
  · intro e resp hresp
    cases e with
    | AuthenticationError m =>
      simp [error_to_http_response] at hresp
      rw [← hresp]
    | DatabaseError m =>
      simp [error_to_http_response] at hresp
      rw [← hresp]
  · intro groups hb hg
    simp [post_authorize, hb, hg]

/-- Closed instance of `c7_issuance_all_or_nothing`: when the bind fails, the
response is the mapped 401 regardless of the group-lookup function. -/
theorem c7_issuance_all_or_nothing_witness :
    post_authorize
      ⟨⟨fun _ => .error (.AuthenticationError "bad creds"),
        fun _ => .ok {"lldap_admin"}, fun _ => .ok []⟩, ⟨"secret"⟩⟩ 0
      ⟨"alice", "pw"⟩ = @error_to_http_response String
        (.AuthenticationError "bad creds") :=
  (c7_issuance_all_or_nothing
      ⟨fun _ => .error (.AuthenticationError "bad creds"),
       fun _ => .ok {"lldap_admin"}, fun _ => .ok []⟩ ⟨"secret"⟩ 0
      ⟨"alice", "pw"⟩).1 (.AuthenticationError "bad creds") rfl
    (fun _ => .ok {"lldap_admin"})

/-- C8: the success response of issuance sets exactly two cookies — the
`token` cookie carrying the signed token string with HttpOnly, `Path=/api`
and a 86400-second Max-Age, and the `user_id` cookie carrying the username
with a 86400-second Max-Age and without HttpOnly — and its body is the same
token string the `token` cookie carries. -/
theorem c8_success_cookies (b : Backend) (key : HmacKey) (now : Int)
    (request : BindRequest) (groups : Finset String)
    (hb : b.bind request = .ok ())
    (hg : b.get_user_groups request.name = .ok groups) :
    post_authorize ⟨b, key⟩ now request =
      .right
        { status := 200
          cookies :=
            [⟨"token", (create_jwt key now request.name groups).as_str,
              some 86400, some "/api", true⟩,
             ⟨"user_id", request.name, some 86400, none, false⟩]
          body := (create_jwt key now request.name groups).as_str } := by
  simp [post_authorize, hb, hg]

/-- Closed instance of `c8_success_cookies` at a concrete backend and
request. -/
theorem c8_success_cookies_witness :
    post_authorize
      ⟨⟨fun _ => .ok (), fun _ => .ok {"lldap_admin"}, fun _ => .ok []⟩,
       ⟨"secret"⟩⟩ 0 ⟨"alice", "pw"⟩ =
      .right
        { status := 200
          cookies :=
            [⟨"token",
              (create_jwt ⟨"secret"⟩ 0 "alice" {"lldap_admin"}).as_str,
              some 86400, some "/api", true⟩,
             ⟨"user_id", "alice", some 86400, none, false⟩]
          body := (create_jwt ⟨"secret"⟩ 0 "alice" {"lldap_admin"}).as_str } :=
  c8_success_cookies
    ⟨fun _ => .ok (), fun _ => .ok {"lldap_admin"}, fun _ => .ok []⟩
    ⟨"secret"⟩ 0 ⟨"alice", "pw"⟩ {"lldap_admin"} rfl rfl

/-- C9 fails as stated: a correctly signed, non-expired token for a user
with no groups is rejected, but the message is
`JWT error: User is not in group lldap_admin`, not the claim's
`User is not in group lldap_admin`. -/
theorem c9_counterexample :
    token_validator ⟨"secret"⟩ 0 ⟨[], []⟩
      (create_jwt ⟨"secret"⟩ 0 "bob" ∅).asCredential =
      .error (.unauthorized "JWT error: User is not in group lldap_admin")
    ∧ ("JWT error: User is not in group lldap_admin" : String) ≠
        "User is not in group lldap_admin" := by
  constructor
  · rfl
  · decide

/-- C9 amended: every correctly signed, non-expired token whose group set
lacks `lldap_admin` is rejected with a 401 whose message is
`JWT error: User is not in group lldap_admin` — a message that names the
required group and is distinct from both the invalid-token and the
expired-token messages. -/
theorem c9_group_gate (key : HmacKey) (now : Int) (req : ServiceRequest)
    (cred : Credential) (h : JwtHeader) (c : JWTClaims)
    (hver : verify_with_key cred key = .ok (h, c)) (hexp : ¬c.exp < now)
    (hgrp : "lldap_admin" ∉ c.groups) :
    token_validator key now req cred =
      .error (.unauthorized ("JWT error: User is not in group " ++
        "lldap_admin"))
    ∧ ("JWT error: User is not in group lldap_admin" : String) ≠ "Invalid JWT"
    ∧ ("JWT error: User is not in group lldap_admin" : String) ≠
        "Expired JWT" := by
  refine ⟨?_, by decide, by decide⟩
  simp [token_validator, hver, hexp, hgrp]

/-- Closed instance of `c9_group_gate`: a token for a user whose only group
is `user` is rejected with the group-naming message. -/
theorem c9_group_gate_witness :
    token_validator ⟨"key2"⟩ 5 ⟨[], []⟩
      (create_jwt ⟨"key2"⟩ 5 "carol" {"user"}).asCredential =
      .error (.unauthorized ("JWT error: User is not in group " ++
        "lldap_admin")) :=
  (c9_group_gate ⟨"key2"⟩ 5 ⟨[], []⟩
      (create_jwt ⟨"key2"⟩ 5 "carol" {"user"}).asCredential
      ⟨.Hs512⟩ ⟨5 + 86400, "carol", {"user"}⟩ rfl (by decide) (by decide)).1

/-- C10: the `/users` resource rejects any body larger than 4096 bytes, and
any body serde cannot deserialize, with a 400 carrying the extraction
failure's rendered message, and the verdict is the same whatever the backend
is — `list_users` is never consulted; only a successfully extracted body
reaches the handler. -/
theorem c10_json_limit (s1 s2 : AppState) (body : RawBody) :
    (4096 < body.size →
      users_route s1 body =
        .right { status := 400, cookies := [],
                 body := JsonPayloadError.to_string .overflow }
      ∧ users_route s1 body = users_route s2 body)
    ∧ (∀ msg, body.size ≤ 4096 → body.parse = .error msg →
      users_route s1 body =
        .right { status := 400, cookies := [],
                 body := "Json deserialize error: " ++ msg }
      ∧ users_route s1 body = users_route s2 body)
    ∧ (∀ info, body.size ≤ 4096 → body.parse = .ok info →
      users_route s1 body = user_list_handler s1 info) := by
  refine ⟨?_, ?_, ?_⟩
  · intro hsize
    have h1 : users_route s1 body =
        .right { status := 400, cookies := [],
                 body := JsonPayloadError.to_string .overflow } := by
      simp [users_route, json_extract, hsize]
    have h2 : users_route s2 body =
        .right { status := 400, cookies := [],
                 body := JsonPayloadError.to_string .overflow } := by
      simp [users_route, json_extract, hsize]
    exact ⟨h1, h1.trans h2.symm⟩
  · intro msg hsize hparse
    have hlt : ¬4096 < body.size := by omega
    have h1 : users_route s1 body =
        .right { status := 400, cookies := [],
                 body := "Json deserialize error: " ++ msg } := by
      simp [users_route, json_extract, hlt, hparse, JsonPayloadError.to_string]
    have h2 : users_route s2 body =
        .right { status := 400, cookies := [],
                 body := "Json deserialize error: " ++ msg } := by
      simp [users_route, json_extract, hlt, hparse, JsonPayloadError.to_string]
    exact ⟨h1, h1.trans h2.symm⟩
  · intro info hsize hparse
    have hlt : ¬4096 < body.size := by omega
    simp [users_route, json_extract, hlt, hparse]

/-- Closed instance of `c10_json_limit`: a 5000-byte body is answered 400
with the overflow message even on a backend whose `list_users` would
succeed. -/
theorem c10_json_limit_witness :
    users_route
      ⟨⟨fun _ => .ok (), fun _ => .ok ∅, fun _ => .ok [⟨"alice"⟩]⟩,
       ⟨"secret"⟩⟩ ⟨5000, .ok ⟨none⟩⟩ =
      .right { status := 400, cookies := [],
               body := JsonPayloadError.to_string .overflow } :=
  ((c10_json_limit
      ⟨⟨fun _ => .ok (), fun _ => .ok ∅, fun _ => .ok [⟨"alice"⟩]⟩, ⟨"secret"⟩⟩
      ⟨⟨fun _ => .ok (), fun _ => .ok ∅, fun _ => .ok []⟩, ⟨"secret"⟩⟩
      ⟨5000, .ok ⟨none⟩⟩).1 (by decide)).1
